import Mathlib

/-!
Shallow embedding of `src/safe_operations.rs`, a typestate-based model of
repository branch protection.  A `Repository` is indexed by its protection
state; destructive operations are defined only at the `Unprotected` index;
`UserConsent` tokens are produced solely by `SafetyGate.request_consent`,
which also appends a grant record to the gate's audit log.
-/

/-- The two protection states.  The Rust source uses two zero-sized marker
types, `Protected` and `Unprotected`, as the phantom parameter of
`Repository<State>`; here they are the two constructors of a state tag
indexing `Repository`. -/
inductive ProtState where
  | Protected
  | Unprotected
deriving DecidableEq

/-- `UserConsent`: proof that a human approved a specific destructive
operation.  The fields mirror the source's private fields `_operation`
(what the user approved) and `_token` (the simulated cryptographic token);
the sole factory in the source is `SafetyGate::request_consent`. -/
structure UserConsent where
  _operation : String
  _token : Nat
deriving DecidableEq

/-- `Repository<State>`: a git repository parameterized by its protection
state.  Fields `name`, `path`, `total_commits` as in the source; the
`PhantomData<State>` marker carries no data and becomes the type index. -/
structure Repository (s : ProtState) where
  name : String
  path : String
  total_commits : Nat
deriving DecidableEq

/-- `Repository::<Protected>::open`: the only constructor of repositories;
every repository starts protected.  (`open` is a Lean keyword, hence the
guillemets.) -/
def Repository.«open» (name path : String) (total_commits : Nat) :
    Repository .Protected :=
  ⟨name, path, total_commits⟩

/-- `Repository::<Protected>::status`: embeds
`format!("{}: {} commits, protected", self.name, self.total_commits)`. -/
def Repository.status (self : Repository .Protected) : String :=
  self.name ++ ": " ++ toString self.total_commits ++ " commits, protected"

/-- `Repository::<Protected>::commit`: embeds
`format!("[{}] committed: {}", self.name, message)`. -/
def Repository.commit (self : Repository .Protected) (message : String) : String :=
  "[" ++ self.name ++ "] committed: " ++ message

/-- `Repository::<Protected>::push`: embeds
`format!("[{}] pushed to origin/main", self.name)`. -/
def Repository.push (self : Repository .Protected) : String :=
  "[" ++ self.name ++ "] pushed to origin/main"

/-- `Repository::<Protected>::remove_protection`: consumes the protected
repository and a consent token (received by shared reference and never
inspected, as the source's `_consent` binder shows) and returns the
unprotected repository with the same field values.  The `println!` is
terminal output only and has no effect on any modelled state. -/
def Repository.remove_protection (self : Repository .Protected)
    (_consent : UserConsent) : Repository .Unprotected :=
  ⟨self.name, self.path, self.total_commits⟩

/-- `Repository::<Unprotected>::force_push`: borrows the repository
(`&self`) and a consent token (never inspected), returning only the
confirmation string `format!("[{}] force-pushed to origin/main", self.name)`;
no repository value is produced or changed. -/
def Repository.force_push (self : Repository .Unprotected)
    (_consent : UserConsent) : String :=
  "[" ++ self.name ++ "] force-pushed to origin/main"

/-- `FilteredRepository`: what remains after `filter_repo` rewrites
history. -/
structure FilteredRepository where
  name : String
  path : String
  rewritten_commits : Nat
deriving DecidableEq

/-- `ResetRepository`: what remains after `reset_hard`.  It has no commit
counter field. -/
structure ResetRepository where
  name : String
  path : String
deriving DecidableEq

/-- `Repository::<Unprotected>::filter_repo`: consumes the repository
(takes `self` by value) and returns a `FilteredRepository` carrying the
name, the path, and the prior `total_commits` as `rewritten_commits`.
The `callback` argument is only echoed to the terminal in the source. -/
def Repository.filter_repo (self : Repository .Unprotected)
    (_callback : String) (_consent : UserConsent) : FilteredRepository :=
  ⟨self.name, self.path, self.total_commits⟩

/-- `Repository::<Unprotected>::reset_hard`: consumes the repository and
returns a `ResetRepository` carrying only the name and the path. -/
def Repository.reset_hard (self : Repository .Unprotected)
    (_consent : UserConsent) : ResetRepository :=
  ⟨self.name, self.path⟩

/-- `Repository::<Unprotected>::restore_protection`: consumes the
unprotected repository, takes no consent token, and returns the protected
repository with the same field values. -/
def Repository.restore_protection (self : Repository .Unprotected) :
    Repository .Protected :=
  ⟨self.name, self.path, self.total_commits⟩

/-- `FilteredRepository::summary` (the `\`-continued Rust string literal
joins into a single line). -/
def FilteredRepository.summary (self : FilteredRepository) : String :=
  "[" ++ self.name ++ "] history rewritten: " ++ toString self.rewritten_commits
    ++ " commits now have new SHAs. Original history is unreachable."

/-- `ResetRepository::summary`. -/
def ResetRepository.summary (self : ResetRepository) : String :=
  "[" ++ self.name ++ "] reset to HEAD. All uncommitted work is permanently lost."

/-- `SafetyGate`: the only source of `UserConsent`; holds the consent
audit log (`consent_log: Vec<String>`). -/
structure SafetyGate where
  consent_log : List String
deriving DecidableEq

/-- `SafetyGate::new`: starts with an empty audit log. -/
def SafetyGate.new : SafetyGate :=
  ⟨[]⟩

/-- `SafetyGate::request_consent`: the `&mut self` method is embedded by
returning the minted token together with the updated gate.  It pushes
`format!("GRANTED: {}", operation_description)` onto the log and mints a
token whose `_operation` is the description and whose `_token` is the
constant `0xDEAD_BEEF`. -/
def SafetyGate.request_consent (self : SafetyGate)
    (operation_description : String) : UserConsent × SafetyGate :=
  (⟨operation_description, 0xDEADBEEF⟩,
    ⟨self.consent_log ++ ["GRANTED: " ++ operation_description]⟩)

/-- The method names of the two `impl Repository<_>` blocks.  Each
constructor names one method of the source file. -/
inductive Method where
  | openRepo
  | status
  | commit
  | push
  | remove_protection
  | force_push
  | filter_repo
  | reset_hard
  | restore_protection
deriving DecidableEq

/-- The operation set of the `Protected` state: exactly the methods of
`impl Repository<Protected>` (lines 95-154 of the source). -/
def protectedMethods : List Method :=
  [.openRepo, .status, .commit, .push, .remove_protection]

/-- The operation set of the `Unprotected` state: exactly the methods of
`impl Repository<Unprotected>` (lines 156-220 of the source). -/
def unprotectedMethods : List Method :=
  [.force_push, .filter_repo, .reset_hard, .restore_protection]

/-- The destructive operations named by the source's own comment block
(`force_push`, `filter_repo` alias `rewrite_history`, `reset_hard` alias
`hard_reset`). -/
def destructiveMethods : List Method :=
  [.force_push, .filter_repo, .reset_hard]

/-- The repository values a program over the embedded API can hold.  The
constructors list every function of the source whose result is a
`Repository` value: `open` (the only constructor, landing in `Protected`),
`remove_protection`, and `restore_protection`.  `force_push` returns only
a `String`, and `filter_repo` / `reset_hard` return terminal byproducts,
so none of them introduces a repository value. -/
inductive Reachable : (s : ProtState) → Repository s → Prop where
  | opened (n p : String) (c : Nat) :
      Reachable .Protected (Repository.«open» n p c)
  | lowered (h : Repository .Protected) (t : UserConsent) :
      Reachable .Protected h → Reachable .Unprotected (h.remove_protection t)
  | restored (h : Repository .Unprotected) :
      Reachable .Unprotected h → Reachable .Protected h.restore_protection

/-- One call of the embedded API, with its arguments, as seen by the
`SafetyGate`. -/
inductive ApiCall where
  | requestConsent (desc : String)
  | lowerProtection (h : Repository .Protected) (t : UserConsent)
  | forcePush (h : Repository .Unprotected) (t : UserConsent)
  | rewriteHistory (h : Repository .Unprotected) (callback : String) (t : UserConsent)
  | hardReset (h : Repository .Unprotected) (t : UserConsent)
  | restoreProtection (h : Repository .Unprotected)
  | statusCall (h : Repository .Protected)
  | commitCall (h : Repository .Protected) (msg : String)
  | pushCall (h : Repository .Protected)
  | printAuditLog

/-- The gate state after one API call.  Only `request_consent` takes the
gate (`&mut self`) in the source; every other method's signature does not
mention `SafetyGate` at all (`print_audit_log` takes `&self` and only
prints), so running it leaves any gate exactly as it was. -/
def gateAfter (g : SafetyGate) : ApiCall → SafetyGate
  | .requestConsent d => (g.request_consent d).2
  | .lowerProtection h t => let _ := h.remove_protection t; g
  | .forcePush h t => let _ := h.force_push t; g
  | .rewriteHistory h cb t => let _ := h.filter_repo cb t; g
  | .hardReset h t => let _ := h.reset_hard t; g
  | .restoreProtection h => let _ := h.restore_protection; g
  | .statusCall h => let _ := h.status; g
  | .commitCall h m => let _ := h.commit m; g
  | .pushCall h => let _ := h.push; g
  | .printAuditLog => g

/-- C1: every destructive operation (`force_push`, `filter_repo` alias
`rewrite_history`, `reset_hard` alias `hard_reset`) is absent from the
`Protected` state's operation set and lives only in the `Unprotected`
one, so no program over the embedding can invoke it on a `Protected`
handle. -/
theorem destructive_ops_absent_from_protected (m : Method)
    (hm : m ∈ destructiveMethods) :
    m ∉ protectedMethods ∧ m ∈ unprotectedMethods := by
  simp only [destructiveMethods, List.mem_cons, List.not_mem_nil, or_false] at hm
  rcases hm with rfl | rfl | rfl <;> exact ⟨by decide, by decide⟩

/-- Witness for C1 at the concrete method `force_push`. -/
theorem destructive_ops_absent_from_protected_witness :
    Method.force_push ∈ destructiveMethods ∧
      (Method.force_push ∉ protectedMethods ∧
        Method.force_push ∈ unprotectedMethods) :=
  ⟨by decide, destructive_ops_absent_from_protected Method.force_push (by decide)⟩

/-- C2: `open(n, p, c).remove_protection(t).restore_protection()` is the
identity on the handle's data: the result is a `Protected` handle (the
statement's type) equal to the original, with name `n`, path `p` and
commit count `c`; `restore_protection` takes no consent token. -/
theorem lower_restore_roundtrip (n p : String) (c : Nat) (t : UserConsent) :
    ((Repository.«open» n p c).remove_protection t).restore_protection
        = Repository.«open» n p c ∧
      (((Repository.«open» n p c).remove_protection t).restore_protection).name = n ∧
      (((Repository.«open» n p c).remove_protection t).restore_protection).path = p ∧
      (((Repository.«open» n p c).remove_protection t).restore_protection).total_commits = c :=
  ⟨rfl, rfl, rfl, rfl⟩

/-- C3: `request_consent desc` appends exactly one record, the grant
record `"GRANTED: " ++ desc`, to the audit log (so the length grows by
one and all prior entries are untouched), and the returned token's
`_operation` field is `desc`. -/
theorem request_consent_appends_one_record (g : SafetyGate) (desc : String) :
    ((g.request_consent desc).2).consent_log
        = g.consent_log ++ ["GRANTED: " ++ desc] ∧
      ((g.request_consent desc).2).consent_log.length
        = g.consent_log.length + 1 ∧
      (((g.request_consent desc).2).consent_log).take g.consent_log.length
        = g.consent_log ∧
      ((g.request_consent desc).1)._operation = desc := by
  refine ⟨rfl, by simp [SafetyGate.request_consent], ?_, rfl⟩
  simp [SafetyGate.request_consent, List.take_left]

/-- C4: `force_push` is non-consuming: on any `Unprotected` handle it
returns the confirmation string for any token, a second call with a
second token returns the same confirmation, and the handle remains usable
afterward with every field unchanged (here: a later `restore_protection`
on the very same handle still carries the original name, path and commit
count). -/
theorem force_push_non_consuming (h : Repository .Unprotected)
    (t1 t2 : UserConsent) :
    h.force_push t1 = "[" ++ h.name ++ "] force-pushed to origin/main" ∧
      h.force_push t2 = "[" ++ h.name ++ "] force-pushed to origin/main" ∧
      h.restore_protection.name = h.name ∧
      h.restore_protection.path = h.path ∧
      h.restore_protection.total_commits = h.total_commits :=
  ⟨rfl, rfl, rfl, rfl, rfl⟩

/-- C5: the terminal byproducts carry forward the consumed handle's data:
`filter_repo` yields a `FilteredRepository` with the handle's name and
path and with `rewritten_commits` equal to the prior `total_commits`;
`reset_hard` yields a `ResetRepository` carrying name and path (its
structure has no counter field). -/
theorem terminal_byproducts_carry_data (h : Repository .Unprotected)
    (cb : String) (t t' : UserConsent) :
    (h.filter_repo cb t).name = h.name ∧
      (h.filter_repo cb t).path = h.path ∧
      (h.filter_repo cb t).rewritten_commits = h.total_commits ∧
      (h.reset_hard t').name = h.name ∧
      (h.reset_hard t').path = h.path :=
  ⟨rfl, rfl, rfl, rfl, rfl⟩

/-- C6: `open` is the only constructor and returns a `Protected` handle
whose fields equal its arguments, and every reachable `Unprotected`
handle comes from `remove_protection` applied to a reachable `Protected`
handle together with a consent token. -/
theorem initial_state_protected :
    (∀ n p c, (Repository.«open» n p c).name = n ∧
        (Repository.«open» n p c).path = p ∧
        (Repository.«open» n p c).total_commits = c) ∧
      (∀ h : Repository .Unprotected, Reachable .Unprotected h →
        ∃ (h' : Repository .Protected) (t : UserConsent),
          Reachable .Protected h' ∧ h = h'.remove_protection t) := by
  refine ⟨fun n p c => ⟨rfl, rfl, rfl⟩, fun h hr => ?_⟩
  cases hr with
  | lowered h' t hr' => exact ⟨h', t, hr', rfl⟩

/-- Witness for C6 at a concrete reachable `Unprotected` handle. -/
theorem initial_state_protected_witness :
    ∃ (h' : Repository .Protected) (t : UserConsent),
      Reachable .Protected h' ∧
        (Repository.«open» "my-repo" "/repos/my-repo" 100).remove_protection
            ⟨"Remove branch protection", 0xDEADBEEF⟩
          = h'.remove_protection t :=
  initial_state_protected.2
    ((Repository.«open» "my-repo" "/repos/my-repo" 100).remove_protection
      ⟨"Remove branch protection", 0xDEADBEEF⟩)
    (Reachable.lowered _ _ (Reachable.opened "my-repo" "/repos/my-repo" 100))

/-- C7: no operation inspects its consent token: `remove_protection`,
`force_push`, `filter_repo` and `reset_hard` return identical results for
any two tokens, whatever descriptions they were minted for. -/
theorem operations_ignore_token_contents (hp : Repository .Protected)
    (hu : Repository .Unprotected) (cb : String) (t1 t2 : UserConsent) :
    hp.remove_protection t1 = hp.remove_protection t2 ∧
      hu.force_push t1 = hu.force_push t2 ∧
      hu.filter_repo cb t1 = hu.filter_repo cb t2 ∧
      hu.reset_hard t1 = hu.reset_hard t2 :=
  ⟨rfl, rfl, rfl, rfl⟩

/-- C8: the audit log is only ever extended (never shortened or edited)
by an API call, and every call other than `request_consent` — the handle
transitions, the read accessors and `print_audit_log` — leaves the gate
exactly as it was. -/
theorem audit_log_only_mutated_by_request_consent (g : SafetyGate)
    (c : ApiCall) :
    (∃ tail, (gateAfter g c).consent_log = g.consent_log ++ tail) ∧
      ((∀ d, c ≠ ApiCall.requestConsent d) → gateAfter g c = g) := by
  cases c with
  | requestConsent d =>
      exact ⟨⟨["GRANTED: " ++ d], rfl⟩, fun hne => absurd rfl (hne d)⟩
  | lowerProtection h t => exact ⟨⟨[], (List.append_nil _).symm⟩, fun _ => rfl⟩
  | forcePush h t => exact ⟨⟨[], (List.append_nil _).symm⟩, fun _ => rfl⟩
  | rewriteHistory h cb t => exact ⟨⟨[], (List.append_nil _).symm⟩, fun _ => rfl⟩
  | hardReset h t => exact ⟨⟨[], (List.append_nil _).symm⟩, fun _ => rfl⟩
  | restoreProtection h => exact ⟨⟨[], (List.append_nil _).symm⟩, fun _ => rfl⟩
  | statusCall h => exact ⟨⟨[], (List.append_nil _).symm⟩, fun _ => rfl⟩
  | commitCall h m => exact ⟨⟨[], (List.append_nil _).symm⟩, fun _ => rfl⟩
  | pushCall h => exact ⟨⟨[], (List.append_nil _).symm⟩, fun _ => rfl⟩
  | printAuditLog => exact ⟨⟨[], (List.append_nil _).symm⟩, fun _ => rfl⟩

/-- Witness for C8 at a concrete gate and the `print_audit_log` call. -/
theorem audit_log_only_mutated_by_request_consent_witness :
    gateAfter ⟨["GRANTED: demo"]⟩ ApiCall.printAuditLog = ⟨["GRANTED: demo"]⟩ :=
  (audit_log_only_mutated_by_request_consent ⟨["GRANTED: demo"]⟩
    ApiCall.printAuditLog).2 (fun _ h => ApiCall.noConfusion h)

/-- C9: on a `Protected` handle the safe operations `status`, `commit`
and `push` are total and return exactly the source's strings — `status`
starts with the handle's name, mentions its commit count, and ends with
the word "protected" — and none of them changes the gate's audit log. -/
theorem protected_safe_ops_pure (h : Repository .Protected) (msg : String)
    (g : SafetyGate) :
    h.status = h.name ++ ": " ++ toString h.total_commits ++ " commits, protected" ∧
      (∃ rest, h.status = h.name ++ rest) ∧
      (∃ front, h.status = front ++ "protected") ∧
      h.commit msg = "[" ++ h.name ++ "] committed: " ++ msg ∧
      h.push = "[" ++ h.name ++ "] pushed to origin/main" ∧
      gateAfter g (ApiCall.statusCall h) = g ∧
      gateAfter g (ApiCall.commitCall h msg) = g ∧
      gateAfter g (ApiCall.pushCall h) = g := by
  refine ⟨rfl, ⟨": " ++ toString h.total_commits ++ " commits, protected", ?_⟩,
    ⟨h.name ++ ": " ++ toString h.total_commits ++ " commits, ", ?_⟩,
    rfl, rfl, rfl, rfl, rfl⟩
  · simp [Repository.status, String.append_assoc]
  · show h.name ++ ": " ++ toString h.total_commits ++ " commits, protected"
        = h.name ++ ": " ++ toString h.total_commits ++ " commits, " ++ "protected"
    have hlit : (" commits, " ++ "protected" : String) = " commits, protected" := rfl
    simp only [String.append_assoc, hlit]

/-- C10: every token ever minted carries the constant proof value
`0xDEAD_BEEF`, so a token's contents are fully determined by the
description it was minted for, and two tokens minted for the same
description — even by different gates — are identical field by field. -/
theorem consent_token_constant (g g' : SafetyGate) (desc : String) :
    ((g.request_consent desc).1)._token = 0xDEADBEEF ∧
      ((g.request_consent desc).1)._operation = desc ∧
      (g.request_consent desc).1 = (g'.request_consent desc).1 :=
  ⟨rfl, rfl, rfl⟩
